import Mathlib

/-!
Verification development for the asynchronous order-processing pipeline
(SQS producer/consumer Lambdas, Step Functions order workflow, EventBridge
router, SNS notification registry).  Each TypeScript handler that the
properties below depend on is embedded as an executable Lean definition;
numeric JSON values are modelled as rationals, and the effectful AWS calls
(DynamoDB put, SQS send, EventBridge put, SNS publish) are modelled by
passing their outcomes explicitly.
-/

/-- One line item of an order: src/lambda items have name, quantity, price. -/
structure OrderItem where
  name : String
  quantity : ℚ
  price : ℚ
deriving DecidableEq

/-- The payload reaching the workflow handlers (workflow.ts): the fields
destructured by validateOrder and friends. -/
structure WorkflowOrder where
  orderId : String
  orderValue : ℚ
  items : List OrderItem
  timestamp : String
deriving DecidableEq

/-- The `validations` object built by validateOrder in workflow.ts:
four independent boolean checks. -/
structure ValidationChecks where
  hasOrderId : Bool
  hasValidValue : Bool
  hasItems : Bool
  itemsHavePrice : Bool
deriving DecidableEq

/-- Embeds the `validations` object literal of validateOrder:
hasOrderId is the JS truthiness of the orderId string (nonempty),
hasValidValue is `orderValue > 0 && orderValue < 10000`,
hasItems is `items && items.length > 0`,
itemsHavePrice is `items.every((item) => item.price > 0)`. -/
def validationChecks (o : WorkflowOrder) : ValidationChecks where
  hasOrderId := o.orderId ≠ ""
  hasValidValue := decide (0 < o.orderValue) && decide (o.orderValue < 10000)
  hasItems := decide (0 < o.items.length)
  itemsHavePrice := o.items.all (fun item => decide (0 < item.price))

/-- The enriched event returned by validateOrder: the input plus `valid`,
`validationResult` and `step: "validation"`. -/
structure ValidationOutcome where
  valid : Bool
  validationResult : ValidationChecks
  step : String
deriving DecidableEq

/-- Embeds validateOrder (workflow.ts): `isValid` is
`Object.values(validations).every((v) => v === true)`, i.e. the conjunction
of the four recorded checks. -/
def validateOrder (o : WorkflowOrder) : ValidationOutcome :=
  let v := validationChecks o
  { valid := v.hasOrderId && v.hasValidValue && v.hasItems && v.itemsHavePrice
    validationResult := v
    step := "validation" }

/-- C2: validateOrder records the four independent checks and returns
`valid` as their conjunction; inputs with an orderId, value strictly
between 0 and 10000, a nonempty item list all of whose prices are
positive validate, and a value of 0 or at least 10000 yields
valid = false with hasValidValue = false. -/
theorem validateOrder_checks_and_validity (o : WorkflowOrder) :
    ((validateOrder o).validationResult = validationChecks o ∧
      (validateOrder o).valid =
        ((validationChecks o).hasOrderId && (validationChecks o).hasValidValue &&
          (validationChecks o).hasItems && (validationChecks o).itemsHavePrice)) ∧
    (o.orderId ≠ "" → 0 < o.orderValue → o.orderValue < 10000 →
      o.items ≠ [] → (∀ it ∈ o.items, 0 < it.price) →
      (validateOrder o).valid = true) ∧
    (o.orderValue = 0 ∨ 10000 ≤ o.orderValue →
      (validateOrder o).valid = false ∧
        (validateOrder o).validationResult.hasValidValue = false) := by
  refine ⟨⟨rfl, rfl⟩, ?_, ?_⟩
  · intro hid hlo hhi hne hpr
    simp only [validateOrder, validationChecks, Bool.and_eq_true, decide_eq_true_eq,
      ne_eq, List.all_eq_true]
    refine ⟨⟨⟨?_, hlo, hhi⟩, ?_⟩, ?_⟩
    · simpa using hid
    · simpa using List.length_pos.mpr hne
    · intro it hit
      simpa using hpr it hit
  · intro hbad
    have hvv : (validationChecks o).hasValidValue = false := by
      rcases hbad with h0 | hge
      · simp [validationChecks, h0]
      · simp [validationChecks, not_lt.mpr hge]
    refine ⟨?_, hvv⟩
    simp only [validateOrder]
    rw [hvv]
    simp

/-- Witness for C2: a concrete in-range order validates, and a concrete
order of value 10000 fails with hasValidValue = false. -/
theorem validateOrder_checks_and_validity_witness :
    (validateOrder
        { orderId := "T1", orderValue := 999,
          items := [{ name := "widget", quantity := 1, price := 999 }],
          timestamp := "2024-01-01" }).valid = true ∧
    ((validateOrder
        { orderId := "T2", orderValue := 10000,
          items := [{ name := "widget", quantity := 1, price := 10000 }],
          timestamp := "2024-01-01" }).valid = false ∧
      (validateOrder
          { orderId := "T2", orderValue := 10000,
            items := [{ name := "widget", quantity := 1, price := 10000 }],
            timestamp := "2024-01-01" }).validationResult.hasValidValue = false) := by
  constructor
  · exact (validateOrder_checks_and_validity _).2.1 (by decide) (by norm_num)
      (by norm_num) (by simp) (by intro it hit; simp at hit; rw [hit]; norm_num)
  · exact (validateOrder_checks_and_validity _).2.2 (Or.inr (by norm_num))

/-- An SQS message body as parsed by the consumer (handler.ts): orderId,
an optional timestamp field, and the remaining order fields kept opaque. -/
structure OrderMsg where
  orderId : String
  timestamp : Option String
  payload : String
deriving DecidableEq

/-- An item of the orders table: the table is keyed on partition key
orderId and sort key timestamp (stack definition, OrdersTable). -/
structure StoredItem where
  orderId : String
  timestamp : String
  processedAt : String
  payload : String
deriving DecidableEq

/-- The composite primary key (orderId, timestamp) of the orders table. -/
def itemKey (it : StoredItem) : String × String := (it.orderId, it.timestamp)

/-- DynamoDB PutCommand semantics on a table keyed by (orderId, timestamp):
a full-item upsert replacing any existing item with the same key. -/
def putItem (s : List StoredItem) (it : StoredItem) : List StoredItem :=
  it :: s.filter (fun j => itemKey j ≠ itemKey it)

/-- JS `orderData.timestamp || new Date().toISOString()`: the message's
timestamp unless it is absent or the empty string (falsy), else `now`. -/
def resolveTimestamp (t : Option String) (now : String) : String :=
  match t with
  | none => now
  | some ts => if ts = "" then now else ts

/-- The consumer's persistence write for one SQS record (handler.ts):
put {...orderData, timestamp: orderData.timestamp || now, processedAt: now}
into the orders table. -/
def consumeRecord (s : List StoredItem) (m : OrderMsg) (now : String) :
    List StoredItem :=
  putItem s
    { orderId := m.orderId
      timestamp := resolveTimestamp m.timestamp now
      processedAt := now
      payload := m.payload }

/-- Number of records of the store carrying a given (orderId, timestamp) key. -/
def countKey (s : List StoredItem) (k : String × String) : Nat :=
  (s.filter (fun it => itemKey it = k)).length

theorem countKey_putItem_self (s : List StoredItem) (it : StoredItem) :
    countKey (putItem s it) (itemKey it) = 1 := by
  simp [countKey, putItem, List.filter_filter]

theorem countKey_consumeRecord (s : List StoredItem) (m : OrderMsg)
    (now : String) :
    countKey (consumeRecord s m now) (m.orderId, resolveTimestamp m.timestamp now)
      = 1 :=
  countKey_putItem_self s _

/-- C1: redelivering one identical message N ≥ 1 times (the first delivery
followed by any list of redeliveries, each with its own wall-clock time)
leaves exactly one persisted record under the message's (orderId, timestamp)
key: the consumer's write is a keyed upsert on the table key. -/
theorem consumer_redelivery_idempotent (m : OrderMsg) (t : String)
    (now0 : String) (redeliveries : List String) (s : List StoredItem)
    (ht : m.timestamp = some t) (hne : t ≠ "") :
    countKey
      (redeliveries.foldl (fun st now => consumeRecord st m now)
        (consumeRecord s m now0))
      (m.orderId, t) = 1 := by
  have hres : ∀ now : String, resolveTimestamp m.timestamp now = t := by
    intro now
    simp [resolveTimestamp, ht, hne]
  induction redeliveries generalizing s now0 with
  | nil =>
    have h := countKey_consumeRecord s m now0
    rwa [hres] at h
  | cons now1 rest ih =>
    simpa [List.foldl_cons] using ih now1 (consumeRecord s m now0)

/-- Witness for C1: a concrete message delivered three times leaves exactly
one record under its key. -/
theorem consumer_redelivery_idempotent_witness :
    countKey
      (["10:01", "10:02"].foldl
        (fun st now =>
          consumeRecord st
            { orderId := "A1", timestamp := some "09:59", payload := "rest" }
            now)
        (consumeRecord []
          { orderId := "A1", timestamp := some "09:59", payload := "rest" }
          "10:00"))
      ("A1", "09:59") = 1 :=
  consumer_redelivery_idempotent
    { orderId := "A1", timestamp := some "09:59", payload := "rest" }
    "09:59" "10:00" ["10:01", "10:02"] [] rfl (by decide)

/-- Outcome of one effectful AWS call, as observed by the handler. -/
inductive Eff
  | success
  | failure (msg : String)
deriving DecidableEq

/-- What processing one SQS record in the consumer produces: whether the
record was acked (no exception escaped), the error rethrown if one did,
whether an EventBridge publish was attempted, and the publish error that
was swallowed and logged, if any. -/
structure ConsumerOutcome where
  acked : Bool
  thrown : Option String
  publishAttempted : Bool
  publishErrorLogged : Option String
deriving DecidableEq

/-- Embeds the consumer's per-record control flow (handler.ts): parse the
body, persist to DynamoDB, then — only when EVENT_BUS_NAME is set — publish
an Order Created event inside an inner try/catch that logs and continues;
any error from parsing or persistence reaches the outer catch and is
rethrown so SQS retries the message. -/
def consumerStep (parse persist : Eff) (busConfigured : Bool)
    (publish : Eff) : ConsumerOutcome :=
  match parse with
  | .failure e =>
    { acked := false, thrown := some e, publishAttempted := false
      publishErrorLogged := none }
  | .success =>
    match persist with
    | .failure e =>
      { acked := false, thrown := some e, publishAttempted := false
        publishErrorLogged := none }
    | .success =>
      if busConfigured then
        match publish with
        | .failure e =>
          { acked := true, thrown := none, publishAttempted := true
            publishErrorLogged := some e }
        | .success =>
          { acked := true, thrown := none, publishAttempted := true
            publishErrorLogged := none }
      else
        { acked := true, thrown := none, publishAttempted := false
          publishErrorLogged := none }

/-- C4: a persistence failure always propagates (the record is not acked and
the error is rethrown), for any event-bus configuration and any publish
outcome; whereas when persistence succeeds and the EventBridge publish
fails, the error is swallowed and logged and the record is acked. -/
theorem consumer_failure_isolation (e e2 : String) (bus : Bool)
    (pub : Eff) :
    ((consumerStep .success (.failure e) bus pub).acked = false ∧
      (consumerStep .success (.failure e) bus pub).thrown = some e) ∧
    ((consumerStep .success .success true (.failure e2)).acked = true ∧
      (consumerStep .success .success true (.failure e2)).thrown = none ∧
      (consumerStep .success .success true
          (.failure e2)).publishErrorLogged = some e2) := by
  refine ⟨⟨rfl, rfl⟩, rfl, rfl, rfl⟩

/-- The states of the order workflow state machine (stack definition):
the four Lambda task states, the Handle Failure task, the Succeed state,
the Fail state, and an aborted terminal for an execution killed by an
uncaught task error. -/
inductive WFState
  | validate
  | processPayment
  | updateInventory
  | sendNotification
  | handleFailure
  | succeeded
  | failedState
  | aborted
deriving DecidableEq, Fintype

/-- What one task invocation yields: an uncaught exception, or a payload
carrying the `valid` and `paymentSuccess` flags inspected by the two
Choice states. -/
inductive StepOutcome
  | exn
  | ok (valid : Bool) (paymentSuccess : Bool)
deriving DecidableEq, Fintype

/-- Embeds the chained workflow `definition` of the stack: validateTask,
processPaymentTask and updateInventoryTask each carry
addCatch(handleFailureTask) on States.ALL; the Validation and Payment
Choice states route a false flag to handleFailureTask;
sendNotificationTask and handleFailureTask carry no catch, so an
exception there terminates the execution abnormally; handleFailureTask
is chained to the Fail state. -/
def nextState : WFState → StepOutcome → WFState
  | .validate, .exn => .handleFailure
  | .validate, .ok v _ => if v then .processPayment else .handleFailure
  | .processPayment, .exn => .handleFailure
  | .processPayment, .ok _ p => if p then .updateInventory else .handleFailure
  | .updateInventory, .exn => .handleFailure
  | .updateInventory, .ok _ _ => .sendNotification
  | .sendNotification, .exn => .aborted
  | .sendNotification, .ok _ _ => .succeeded
  | .handleFailure, .exn => .aborted
  | .handleFailure, .ok _ _ => .failedState
  | .succeeded, _ => .succeeded
  | .failedState, _ => .failedState
  | .aborted, _ => .aborted

/-- The trace of states visited when driving the machine from a state
through a list of task outcomes. -/
def runStates : WFState → List StepOutcome → List WFState
  | s, [] => [s]
  | s, o :: os => s :: runStates (nextState s o) os

/-- C3 counterexample: in the run where Validate, ProcessPayment and
UpdateInventory succeed and SendNotification raises an exception, the
execution terminates abnormally and HandleFailure is never entered —
the SendNotification stage's error path does not lead to the shared
HandleFailure state, refuting the claim. -/
theorem sendNotification_exception_bypasses_handleFailure :
    runStates WFState.validate
        [StepOutcome.ok true true, StepOutcome.ok true true,
          StepOutcome.ok true true, StepOutcome.exn] =
      [WFState.validate, WFState.processPayment, WFState.updateInventory,
        WFState.sendNotification, WFState.aborted] ∧
    WFState.handleFailure ∉
      runStates WFState.validate
        [StepOutcome.ok true true, StepOutcome.ok true true,
          StepOutcome.ok true true, StepOutcome.exn] := by
  decide

/-- C3 amended: exceptions at Validate, ProcessPayment and UpdateInventory,
and the negative branches valid = false and paymentSuccess = false, all
route to the single shared HandleFailure state, which is the only state
transitioning to the terminal Failed state; but an exception at
SendNotification (which has no catch) aborts the execution without
passing through HandleFailure. -/
theorem workflow_failure_routing_amended :
    (∀ v p : Bool,
      nextState .validate .exn = .handleFailure ∧
      nextState .validate (.ok false p) = .handleFailure ∧
      nextState .processPayment .exn = .handleFailure ∧
      nextState .processPayment (.ok v false) = .handleFailure ∧
      nextState .updateInventory .exn = .handleFailure ∧
      nextState .handleFailure (.ok v p) = .failedState) ∧
    nextState .sendNotification .exn = .aborted ∧
    (∀ (s : WFState) (o : StepOutcome),
      nextState s o = .failedState →
        s = .handleFailure ∨ s = .failedState) := by
  decide

/-- Witness for C3 amended: instantiating the failed-payment branch and
the unique-compensation implication at HandleFailure itself. -/
theorem workflow_failure_routing_amended_witness :
    nextState WFState.processPayment (StepOutcome.ok true false) =
        WFState.handleFailure ∧
      (WFState.handleFailure = WFState.handleFailure ∨
        WFState.handleFailure = WFState.failedState) :=
  ⟨(workflow_failure_routing_amended.1 true true).2.2.2.1,
    workflow_failure_routing_amended.2.2 WFState.handleFailure
      (StepOutcome.ok true true) rfl⟩

/-- States from which the workflow can never again reach a normal
processing stage: HandleFailure and the failure terminals. -/
def failureSink : WFState → Bool
  | .handleFailure => true
  | .failedState => true
  | .aborted => true
  | _ => false

theorem failureSink_nextState (s : WFState) (o : StepOutcome)
    (h : failureSink s = true) : failureSink (nextState s o) = true := by
  revert h
  cases s <;> cases o <;> simp [failureSink, nextState]

theorem runStates_failureSink (outs : List StepOutcome) (s : WFState)
    (h : failureSink s = true) :
    ∀ t ∈ runStates s outs, failureSink t = true := by
  induction outs generalizing s with
  | nil =>
    intro t ht
    simp only [runStates, List.mem_singleton] at ht
    subst ht
    exact h
  | cons o os ih =>
    intro t ht
    simp only [runStates, List.mem_cons] at ht
    rcases ht with rfl | ht
    · exact h
    · exact ih (nextState s o) (failureSink_nextState s o h) t ht

/-- C7: a ProcessPayment failure — exception or paymentSuccess = false —
transitions to HandleFailure, and no continuation of the execution from
HandleFailure ever visits the UpdateInventory or SendNotification stage. -/
theorem payment_failure_skips_inventory_and_notification (v : Bool)
    (outs : List StepOutcome) :
    nextState .processPayment .exn = .handleFailure ∧
    nextState .processPayment (.ok v false) = .handleFailure ∧
    WFState.updateInventory ∉ runStates .handleFailure outs ∧
    WFState.sendNotification ∉ runStates .handleFailure outs := by
  refine ⟨rfl, rfl, ?_, ?_⟩ <;>
  · intro hmem
    have hs := runStates_failureSink outs .handleFailure rfl _ hmem
    simp [failureSink] at hs

/-- An order submission as the producer sees a parsed JSON body: every
schema field may be absent. -/
structure Submission where
  orderId : Option String
  customerName : Option String
  customerEmail : Option String
  priority : Option String
  orderValue : Option ℚ
  items : Option (List OrderItem)
  timestamp : Option String
deriving DecidableEq

/-- The body of a POST /orders request as the producer examines it:
absent, syntactically invalid JSON (JSON.parse throws with the given
message), or a parsed submission. -/
inductive RequestBody
  | missing
  | invalidJson (parseError : String)
  | parsed (s : Submission)
deriving DecidableEq

/-- The producer's HTTP response shape: status code plus the message and
the orderId or error fields of the JSON body. -/
structure HttpResponse where
  statusCode : Nat
  message : String
  orderId : Option String
  error : Option String
deriving DecidableEq

/-- JS truthiness of an optional string field: present and nonempty. -/
def jsTruthy : Option String → Bool
  | none => false
  | some s => s ≠ ""

/-- The producer's catch-all error response:
500 with message "Error creating order" and the thrown error. -/
def producerError (e : String) : HttpResponse :=
  { statusCode := 500, message := "Error creating order", orderId := none
    error := some e }

/-- Embeds the producer handler (handler.ts): throw if the body is absent,
if JSON.parse fails, or if orderId is falsy; otherwise send the full body
to SQS and answer 200 — any thrown error is answered as a 500.  The second
component is the message enqueued to SQS, if any. -/
def producer (b : RequestBody) (enqueue : Eff) :
    HttpResponse × Option Submission :=
  match b with
  | .missing => (producerError "Request body is required", none)
  | .invalidJson e => (producerError e, none)
  | .parsed s =>
    if jsTruthy s.orderId then
      match enqueue with
      | .failure e => (producerError e, none)
      | .success =>
        ({ statusCode := 200, message := "Order placed in queue"
           orderId := s.orderId, error := none }, some s)
    else
      (producerError "orderId is required", none)

/-- C5 counterexample: a submission carrying only an orderId — with
customerName, customerEmail, priority, orderValue, items and timestamp all
missing from the schema — is not rejected: the producer answers 200 and
enqueues it, refuting the claim that malformed or missing submission
fields are rejected synchronously and never enqueued. -/
theorem producer_accepts_missing_fields :
    (producer
        (RequestBody.parsed
          { orderId := some "A1", customerName := none, customerEmail := none
            priority := none, orderValue := none, items := none
            timestamp := none })
        Eff.success).1.statusCode = 200 ∧
    (producer
        (RequestBody.parsed
          { orderId := some "A1", customerName := none, customerEmail := none
            priority := none, orderValue := none, items := none
            timestamp := none })
        Eff.success).2 =
      some
        { orderId := some "A1", customerName := none, customerEmail := none
          priority := none, orderValue := none, items := none
          timestamp := none } := by
  decide

/-- C5 amended: the producer rejects with a 500 {message, error} response
and enqueues nothing exactly when the body is absent, the JSON is
malformed, the orderId field is missing or falsy, or the enqueue itself
fails; any parsed submission with a truthy orderId — regardless of the
other schema fields — is enqueued in full and answered
200 {message, orderId}. -/
theorem producer_gating_amended (s : Submission) (e : String) (enq : Eff) :
    producer .missing enq = (producerError "Request body is required", none) ∧
    producer (.invalidJson e) enq = (producerError e, none) ∧
    (jsTruthy s.orderId = false →
      producer (.parsed s) enq = (producerError "orderId is required", none)) ∧
    (jsTruthy s.orderId = true →
      producer (.parsed s) (.failure e) = (producerError e, none)) ∧
    (jsTruthy s.orderId = true →
      producer (.parsed s) .success =
        ({ statusCode := 200, message := "Order placed in queue"
           orderId := s.orderId, error := none }, some s)) := by
  refine ⟨rfl, rfl, ?_, ?_, ?_⟩ <;> intro h <;> simp [producer, h]

/-- Witness for C5 amended: a concrete submission with an empty orderId is
rejected without being enqueued. -/
theorem producer_gating_amended_witness :
    producer
        (RequestBody.parsed
          { orderId := some "", customerName := some "Ann"
            customerEmail := some "ann@example.com", priority := some "low"
            orderValue := some 42, items := some [], timestamp := some "t" })
        Eff.success =
      (producerError "orderId is required", none) :=
  (producer_gating_amended
      { orderId := some "", customerName := some "Ann"
        customerEmail := some "ann@example.com", priority := some "low"
        orderValue := some 42, items := some [], timestamp := some "t" }
      "x" Eff.success).2.2.1 (by decide)

/-- The dead-letter policy configured on OrdersQueue in the stack:
maxReceiveCount 3 — send to the DLQ after 3 failed processing attempts. -/
def maxReceiveCount : Nat := 3

/-- Where one queue message currently lives, with its receive count. -/
structure QueueMsgState where
  receiveCount : Nat
  inMainQueue : Bool
  inDeadLetter : Bool
deriving DecidableEq

/-- Modelled from the spec: the redelivery and dead-letter engine of the
durable queue (AWS SQS) is not repository source — only its configuration
above is.  Spec: an unacked message becomes visible again after the
visibility timeout and is moved to the dead-letter store once the receive
count reaches the configured maximum of 3 failed consumer attempts,
after which it sits in the dead-letter store and no longer in the main
queue.  One failed processing attempt increments the receive count; at
the maximum the message moves to the dead-letter store, otherwise it
returns to the main queue; dead-lettered messages are not redelivered. -/
def failedAttempt (st : QueueMsgState) : QueueMsgState :=
  if st.inMainQueue then
    if maxReceiveCount ≤ st.receiveCount + 1 then
      { receiveCount := st.receiveCount + 1, inMainQueue := false
        inDeadLetter := true }
    else
      { receiveCount := st.receiveCount + 1, inMainQueue := true
        inDeadLetter := false }
  else st

/-- A freshly enqueued message: never received, in the main queue. -/
def freshMessage : QueueMsgState :=
  { receiveCount := 0, inMainQueue := true, inDeadLetter := false }

/-- The state of a message all of whose first n processing attempts failed. -/
def afterFailedAttempts : Nat → QueueMsgState
  | 0 => freshMessage
  | n + 1 => failedAttempt (afterFailedAttempts n)

theorem afterFailedAttempts_ge_three (k : Nat) :
    afterFailedAttempts (3 + k) =
      { receiveCount := 3, inMainQueue := false, inDeadLetter := true } := by
  induction k with
  | zero => decide
  | succ k ih =>
    have h3 : 3 + (k + 1) = (3 + k) + 1 := by omega
    rw [h3]
    show failedAttempt (afterFailedAttempts (3 + k)) = _
    rw [ih]
    decide

/-- C6: after 3 failed consumer attempts the message sits in the
dead-letter store and no longer in the main queue; from then on it stays
there, its receive count stays at 3 (no unbounded retry), and at every
point it is in exactly one of the two stores (never silently dropped). -/
theorem queue_dead_letter_after_three (n : Nat) (h : 3 ≤ n) :
    (afterFailedAttempts 3).inDeadLetter = true ∧
    (afterFailedAttempts 3).inMainQueue = false ∧
    (afterFailedAttempts n).inDeadLetter = true ∧
    (afterFailedAttempts n).inMainQueue = false ∧
    (afterFailedAttempts n).receiveCount = 3 ∧
    ∀ m : Nat,
      (afterFailedAttempts m).inMainQueue = true ∨
        (afterFailedAttempts m).inDeadLetter = true := by
  obtain ⟨k, rfl⟩ := Nat.exists_eq_add_of_le h
  rw [afterFailedAttempts_ge_three]
  refine ⟨?_, ?_, rfl, rfl, rfl, ?_⟩
  · have h0 := afterFailedAttempts_ge_three 0
    rw [h0]
  · have h0 := afterFailedAttempts_ge_three 0
    rw [h0]
  · intro m
    rcases Nat.lt_or_ge m 3 with hm | hm
    · interval_cases m <;> decide
    · obtain ⟨j, rfl⟩ := Nat.exists_eq_add_of_le hm
      rw [afterFailedAttempts_ge_three]
      right
      rfl

/-- Witness for C6: after 5 failed attempts the concrete message state is
dead-lettered, out of the main queue, with receive count capped at 3. -/
theorem queue_dead_letter_after_three_witness :
    (afterFailedAttempts 5).inDeadLetter = true ∧
    (afterFailedAttempts 5).inMainQueue = false ∧
    (afterFailedAttempts 5).receiveCount = 3 :=
  ⟨(queue_dead_letter_after_three 5 (by decide)).2.2.1,
    (queue_dead_letter_after_three 5 (by decide)).2.2.2.1,
    (queue_dead_letter_after_three 5 (by decide)).2.2.2.2.1⟩

/-- An Order Created event as put on the order event bus by the consumer:
source "order.system", detailType "Order Created", and the detail fields
the router rules inspect. -/
structure OrderCreatedEvent where
  source : String
  detailType : String
  orderValue : ℚ
  priority : String
deriving DecidableEq

/-- Embeds the event pattern of HighValueOrderRule in the stack: source
"order.system", detailType "Order Created", and detail.orderValue
numerically strictly greater than 500; its target starts the order
workflow via the triggerWorkflow Lambda. -/
def highValueOrderRule (e : OrderCreatedEvent) : Bool :=
  (e.source == "order.system") && (e.detailType == "Order Created") &&
    decide (500 < e.orderValue)

/-- C8: for an Order Created event on the bus, the high-value rule fires
if and only if orderValue is strictly greater than 500; in particular an
event of value exactly 500 does not start the workflow. -/
theorem highValue_rule_strict_threshold (e : OrderCreatedEvent)
    (hsrc : e.source = "order.system")
    (hdt : e.detailType = "Order Created") :
    (highValueOrderRule e = true ↔ 500 < e.orderValue) ∧
    (e.orderValue = 500 → highValueOrderRule e = false) := by
  constructor
  · simp [highValueOrderRule, hsrc, hdt]
  · intro h500
    simp [highValueOrderRule, h500]

/-- Witness for C8: a 501-valued event fires the rule, a 500-valued one
does not. -/
theorem highValue_rule_strict_threshold_witness :
    highValueOrderRule
        { source := "order.system", detailType := "Order Created"
          orderValue := 501, priority := "low" } = true ∧
    highValueOrderRule
        { source := "order.system", detailType := "Order Created"
          orderValue := 500, priority := "low" } = false :=
  ⟨(highValue_rule_strict_threshold _ rfl rfl).1.mpr (by norm_num),
    (highValue_rule_strict_threshold _ rfl rfl).2 rfl⟩

/-- The optional per-event-type preferences of a subscribe request body:
none models an omitted key. -/
structure NotificationPreferences where
  orderCreated : Option Bool
  orderCompleted : Option Bool
  orderFailed : Option Bool
  orderUrgent : Option Bool
deriving DecidableEq

/-- Embeds the eventTypes list built by subscribeEmail (handler.ts): each
of the four event types is pushed unless its preference is explicitly
false (an omitted preference counts as enabled). -/
def buildEventTypes (p : NotificationPreferences) : List String :=
  (if p.orderCreated ≠ some false then ["OrderCreated"] else []) ++
    (if p.orderCompleted ≠ some false then ["OrderCompleted"] else []) ++
    (if p.orderFailed ≠ some false then ["OrderFailed"] else []) ++
    (if p.orderUrgent ≠ some false then ["OrderUrgent"] else [])

/-- Embeds the filter policy subscribeEmail attaches to the SNS
subscription, including its fallback: if the caller disabled everything
the handler subscribes to all four event types rather than create an
empty filter. -/
def subscribeFilterPolicy (p : NotificationPreferences) : List String :=
  let ts := buildEventTypes p
  if ts = [] then
    ["OrderCreated", "OrderCompleted", "OrderFailed", "OrderUrgent"]
  else ts

/-- Modelled from the spec: filter-policy matching is performed by the
notification service (AWS SNS), not by repository code; the spec says
publish delivers to every confirmed subscription whose filter set
includes the event's type, and every publisher in workflow.ts stamps the
eventType message attribute that this filter inspects. -/
def snsDelivers (filterSet : List String) (eventType : String) : Bool :=
  filterSet.contains eventType

/-- C9: a subscription created with preferences {orderUrgent: false} gets
the filter containing exactly the three event types not explicitly
disabled, so an OrderUrgent event is not delivered to it while an
OrderCreated event still is. -/
theorem urgent_optout_filters_delivery :
    subscribeFilterPolicy
        { orderCreated := none, orderCompleted := none, orderFailed := none
          orderUrgent := some false } =
      ["OrderCreated", "OrderCompleted", "OrderFailed"] ∧
    snsDelivers
        (subscribeFilterPolicy
          { orderCreated := none, orderCompleted := none, orderFailed := none
            orderUrgent := some false })
        "OrderUrgent" = false ∧
    snsDelivers
        (subscribeFilterPolicy
          { orderCreated := none, orderCompleted := none, orderFailed := none
            orderUrgent := some false })
        "OrderCreated" = true := by
  decide

/-- C10: disabling all four event types does not produce an empty filter
or a rejection: the handler falls back to subscribing to all four event
types, so such a subscriber is delivered every event kind. -/
theorem all_disabled_defaults_to_all_event_types :
    buildEventTypes
        { orderCreated := some false, orderCompleted := some false
          orderFailed := some false, orderUrgent := some false } = [] ∧
    subscribeFilterPolicy
        { orderCreated := some false, orderCompleted := some false
          orderFailed := some false, orderUrgent := some false } =
      ["OrderCreated", "OrderCompleted", "OrderFailed", "OrderUrgent"] ∧
    ∀ t ∈ ["OrderCreated", "OrderCompleted", "OrderFailed", "OrderUrgent"],
      snsDelivers
        (subscribeFilterPolicy
          { orderCreated := some false, orderCompleted := some false
            orderFailed := some false, orderUrgent := some false })
        t = true := by
  decide
